import Mathlib

/-!
Shallow embedding of the `MyPluginAudioProcessor` audio plugin
(`Source/PluginProcessor.h` / `Source/PluginProcessor.cpp`), a minimal
JUCE-style gain plugin, together with proofs of its specified properties.

Samples are modelled as rationals: every property verified here
(zero-clearing, multiplication by the unity default gain, frame
conditions) is exact in IEEE arithmetic as well (`x * 1 = x` and
`g * 0 = 0` hold exactly for floats), so ℚ is an adequate sample model.

The JUCE framework primitives the plugin delegates to
(`juce::dsp::Gain`, `juce::AudioBuffer::clear`, `juce::dsp::ProcessorChain`,
`juce::ScopedNoDenormals`) are external collaborators; they are embedded
here following their fixed documented contracts, which the repository's
spec also describes (a single built-in gain stage, default 0 dB = unity,
applied sample-wise over the block).
-/

/-- `juce::dsp::ProcessSpec`: the format handed to every stage of a
processor chain on `prepare`. -/
structure ProcessSpec where
  sampleRate : ℚ
  maximumBlockSize : Nat
  numChannels : Nat
deriving Repr, DecidableEq

/-- State of the single `juce::dsp::Gain<float>` stage of the chain.
`gainLinear` is the gain target (default-initialised to `1.0`, i.e. 0 dB);
`sampleRate` is recorded by `Gain::prepare`. -/
structure GainState where
  gainLinear : ℚ
  sampleRate : ℚ
deriving Repr, DecidableEq

/-- Default-constructed `juce::dsp::Gain<float>`: unity gain, sample rate 0. -/
def GainState.default : GainState := { gainLinear := 1, sampleRate := 0 }

/-- `juce::dsp::Gain::prepare (spec)`: records the spec's sample rate
(the gain value itself is untouched). -/
def GainState.prepare (g : GainState) (spec : ProcessSpec) : GainState :=
  { g with sampleRate := spec.sampleRate }

/-- `juce::dsp::Gain::process` over a whole block (via
`ProcessContextReplacing`): multiplies every sample of every channel by
the current gain. With the default ramp duration of 0 the smoother is
inactive, so the gain state itself is unchanged by processing. -/
def GainState.processData (g : GainState) (channels : List (List ℚ)) :
    List (List ℚ) :=
  channels.map (fun ch => ch.map (fun s => g.gainLinear * s))

/-- `juce::AudioBuffer<float>`: a fixed shape of channels × samples.
`channels` holds the per-channel sample data; well-formed buffers have
every channel of length `numSamples` (see `AudioBuffer.WF`). -/
structure AudioBuffer where
  numSamples : Nat
  channels : List (List ℚ)
deriving Repr, DecidableEq

/-- `AudioBuffer::getNumChannels()`. -/
def AudioBuffer.getNumChannels (b : AudioBuffer) : Nat := b.channels.length

/-- `AudioBuffer::getNumSamples()`. -/
def AudioBuffer.getNumSamples (b : AudioBuffer) : Nat := b.numSamples

/-- Well-formedness of a host-supplied buffer: every channel holds
exactly `numSamples` samples. -/
def AudioBuffer.WF (b : AudioBuffer) : Prop :=
  ∀ ch ∈ b.channels, ch.length = b.numSamples

instance (b : AudioBuffer) : Decidable b.WF := by
  unfold AudioBuffer.WF; infer_instance

/-- `AudioBuffer::clear (channel, startSample, numSamples)`: zeroes the
samples `[startSample, startSample + num)` of the given channel. -/
def AudioBuffer.clear (b : AudioBuffer) (channel startSample num : Nat) :
    AudioBuffer :=
  { b with
    channels := b.channels.mapIdx (fun i ch =>
      if i = channel then
        ch.mapIdx (fun j s =>
          if startSample ≤ j ∧ j < startSample + num then 0 else s)
      else ch) }

/-- `juce::MidiBuffer`: a sequence of timed MIDI events. The plugin never
inspects it, so events are kept abstract as (samplePosition, rawBytes). -/
abbrev MidiBuffer : Type := List (Nat × List Nat)

/-- `juce::MemoryBlock`: a growable byte blob (bytes as `Nat`). -/
abbrev MemoryBlock : Type := List Nat

/-- The processor (`MyPluginAudioProcessor`): bus-derived channel counts
(the constructor declares one stereo input bus and one stereo output bus)
and the `processorChain`, a `juce::dsp::ProcessorChain` holding the single
`juce::dsp::Gain<float>` stage. -/
structure MyPluginAudioProcessor where
  totalNumInputChannels : Nat
  totalNumOutputChannels : Nat
  processorChain : GainState
deriving Repr, DecidableEq

/-- The constructor `MyPluginAudioProcessor()`: stereo in, stereo out,
default-constructed gain stage. -/
def MyPluginAudioProcessor.construct : MyPluginAudioProcessor :=
  { totalNumInputChannels := 2
    totalNumOutputChannels := 2
    processorChain := GainState.default }

/-- `MyPluginAudioProcessor::prepareToPlay (sampleRate, samplesPerBlock)`:
builds a `ProcessSpec` from the arguments and the bus layout's output
channel count, and prepares the whole chain with it. -/
def MyPluginAudioProcessor.prepareToPlay (p : MyPluginAudioProcessor)
    (sampleRate : ℚ) (samplesPerBlock : Nat) : MyPluginAudioProcessor :=
  let spec : ProcessSpec :=
    { sampleRate := sampleRate
      maximumBlockSize := samplesPerBlock
      numChannels := p.totalNumOutputChannels }
  { p with processorChain := p.processorChain.prepare spec }

/-- `MyPluginAudioProcessor::releaseResources()`: empty body, no effect. -/
def MyPluginAudioProcessor.releaseResources
    (p : MyPluginAudioProcessor) : MyPluginAudioProcessor := p

/-- The clear-unused-channels loop of `processBlock`:
`for (auto i = totalNumInputChannels; i < totalNumOutputChannels; ++i)
  buffer.clear (i, 0, buffer.getNumSamples());`. -/
def MyPluginAudioProcessor.clearUnusedChannels (p : MyPluginAudioProcessor)
    (buffer : AudioBuffer) : AudioBuffer :=
  (List.range' p.totalNumInputChannels
    (p.totalNumOutputChannels - p.totalNumInputChannels)).foldl
    (fun b i => b.clear i 0 b.getNumSamples) buffer

/-- `MyPluginAudioProcessor::processBlock (buffer, midiMessages)`: clears
the output channels beyond the input channels, wraps the buffer in an
`AudioBlock`/`ProcessContextReplacing`, and runs the chain over it in
place. Returns the processor, the buffer, and the MIDI buffer after the
call (`midiMessages` is never touched by the body). -/
def MyPluginAudioProcessor.processBlock (p : MyPluginAudioProcessor)
    (buffer : AudioBuffer) (midiMessages : MidiBuffer) :
    MyPluginAudioProcessor × AudioBuffer × MidiBuffer :=
  let cleared := p.clearUnusedChannels buffer
  let processed :=
    { cleared with channels := p.processorChain.processData cleared.channels }
  (p, processed, midiMessages)

/-- `MyPluginAudioProcessor::getStateInformation (destData)`: the body is
`juce::ignoreUnused (destData);` — it writes nothing into the destination
block. Returns the destination block after the call. -/
def MyPluginAudioProcessor.getStateInformation (p : MyPluginAudioProcessor)
    (destData : MemoryBlock) : MemoryBlock :=
  destData

/-- `MyPluginAudioProcessor::setStateInformation (data, sizeInBytes)`: the
body is `juce::ignoreUnused (data, sizeInBytes);` — a total no-op on the
processor for every byte sequence. -/
def MyPluginAudioProcessor.setStateInformation (p : MyPluginAudioProcessor)
    (data : List Nat) (sizeInBytes : Nat) : MyPluginAudioProcessor :=
  p

/-- `MyPluginAudioProcessor::acceptsMidi()` (header, returns `false`). -/
def MyPluginAudioProcessor.acceptsMidi (p : MyPluginAudioProcessor) : Bool :=
  false

/-- `MyPluginAudioProcessor::producesMidi()` (header, returns `false`). -/
def MyPluginAudioProcessor.producesMidi (p : MyPluginAudioProcessor) : Bool :=
  false

/-- `MyPluginAudioProcessor::isMidiEffect()` (header, returns `false`). -/
def MyPluginAudioProcessor.isMidiEffect (p : MyPluginAudioProcessor) : Bool :=
  false

/-- The only parameter-like value the plugin carries: the gain stage's
linear gain (the plugin exposes no parameter system, and the spec's
"parameter values" can only refer to this). -/
def MyPluginAudioProcessor.paramValues (p : MyPluginAudioProcessor) : ℚ :=
  p.processorChain.gainLinear

/-- The default parameter values: unity gain (0 dB). -/
def defaultParamValues : ℚ := GainState.default.gainLinear

/-- Processor states reachable through the host lifecycle: construction
followed by any sequence of `prepareToPlay`, `releaseResources`,
`processBlock`, `getStateInformation`, `setStateInformation` calls
(`getStateInformation` does not change the processor, and the metadata
accessors are pure, so they need no constructors here). -/
inductive Reachable : MyPluginAudioProcessor → Prop
  | construct : Reachable MyPluginAudioProcessor.construct
  | prepareToPlay {p : MyPluginAudioProcessor} (sampleRate : ℚ)
      (samplesPerBlock : Nat) :
      Reachable p → Reachable (p.prepareToPlay sampleRate samplesPerBlock)
  | releaseResources {p : MyPluginAudioProcessor} :
      Reachable p → Reachable p.releaseResources
  | processBlock {p : MyPluginAudioProcessor} (buffer : AudioBuffer)
      (midiMessages : MidiBuffer) :
      Reachable p → Reachable (p.processBlock buffer midiMessages).1
  | setStateInformation {p : MyPluginAudioProcessor} (data : List Nat)
      (sizeInBytes : Nat) :
      Reachable p → Reachable (p.setStateInformation data sizeInBytes)

/-- The steps of the `processBlock` body that interact with the
floating-point environment or process audio, in source order:
the `juce::ScopedNoDenormals noDenormals;` constructor at the top of the
body, the clear loop, the chain processing, and the `ScopedNoDenormals`
destructor that runs when the function returns. -/
inductive PBAction
  | enterScopedNoDenormals
  | clearUnusedChannels
  | chainProcess
  | exitScopedNoDenormals
deriving Repr, DecidableEq

/-- The sequence of actions `processBlock` performs, in source order. -/
def processBlockActions : List PBAction :=
  [PBAction.enterScopedNoDenormals, PBAction.clearUnusedChannels,
   PBAction.chainProcess, PBAction.exitScopedNoDenormals]

/-- Effect of each `processBlock` step on the denormal-flushing flag of
the floating-point environment. `saved` is the flag value saved by the
`ScopedNoDenormals` constructor (the value on entry); the constructor
enables flushing, audio-processing steps leave the environment alone, and
the destructor restores the saved value. -/
def stepFpEnv (saved : Bool) (env : Bool) : PBAction → Bool
  | PBAction.enterScopedNoDenormals => true
  | PBAction.clearUnusedChannels => env
  | PBAction.chainProcess => env
  | PBAction.exitScopedNoDenormals => saved

/-- The trace of denormal-flushing flag values over a `processBlock`
call, starting from flag value `initial`: entry value followed by the
value after each step. -/
def fpEnvTrace (initial : Bool) : List Bool :=
  processBlockActions.scanl (stepFpEnv initial) initial

/-! ### Helper lemmas about the embedded JUCE primitives -/

/-- Membership in `mapIdx` comes from some index of the original list. -/
theorem mem_mapIdx_exists {α β : Type} (l : List α) (f : Nat → α → β) {s : β}
    (hs : s ∈ l.mapIdx f) : ∃ k, ∃ h : k < l.length, s = f k (l.get ⟨k, h⟩) := by
  rw [List.mapIdx_eq_ofFn, List.mem_ofFn] at hs
  obtain ⟨i, hi⟩ := hs
  exact ⟨i.1, i.2, hi.symm⟩

/-- `clear` leaves `numSamples` unchanged. -/
theorem AudioBuffer.numSamples_clear (b : AudioBuffer) (c s n : Nat) :
    (b.clear c s n).numSamples = b.numSamples := rfl

/-- `getNumSamples` reads the `numSamples` field. -/
theorem AudioBuffer.getNumSamples_eq (b : AudioBuffer) :
    b.getNumSamples = b.numSamples := rfl

/-- `clear` leaves the number of channels unchanged. -/
theorem AudioBuffer.channels_length_clear (b : AudioBuffer) (c s n : Nat) :
    (b.clear c s n).channels.length = b.channels.length := by
  unfold AudioBuffer.clear
  exact List.length_mapIdx

/-- Indexing into the channels of a cleared buffer. -/
theorem AudioBuffer.channels_clear_getElem? (b : AudioBuffer) (c s n j : Nat) :
    (b.clear c s n).channels[j]? =
      if j = c then
        Option.map (fun ch => ch.mapIdx fun k t => if s ≤ k ∧ k < s + n then 0 else t)
          b.channels[j]?
      else b.channels[j]? := by
  unfold AudioBuffer.clear
  rw [List.getElem?_mapIdx]
  by_cases h : j = c
  · simp [h]
  · simp [h]

/-- Zeroing the whole index range of a channel yields a zero channel. -/
theorem zeroRange_eq_replicate (ch : List ℚ) (n : Nat) (hl : ch.length = n) :
    (ch.mapIdx fun k t => if 0 ≤ k ∧ k < 0 + n then (0 : ℚ) else t)
      = List.replicate n 0 := by
  apply List.ext_getElem?
  intro j
  rw [List.getElem?_mapIdx, List.getElem?_replicate]
  by_cases h : j < n
  · rw [List.getElem?_eq_getElem (show j < ch.length by omega)]
    simp [h]
  · rw [List.getElem?_eq_none (show ch.length ≤ j by omega), if_neg h]
    rfl

/-- `clear` preserves buffer well-formedness. -/
theorem AudioBuffer.WF_clear (b : AudioBuffer) (c s n : Nat) (hwf : b.WF) :
    (b.clear c s n).WF := by
  intro ch hch
  rw [AudioBuffer.numSamples_clear]
  rw [List.mem_iff_getElem?] at hch
  obtain ⟨j, hj⟩ := hch
  rw [AudioBuffer.channels_clear_getElem?] at hj
  by_cases h : j = c
  · rw [if_pos h] at hj
    obtain ⟨ch0, hch0, rfl⟩ := Option.map_eq_some'.mp hj
    rw [List.length_mapIdx]
    exact hwf _ (List.getElem?_mem hch0)
  · rw [if_neg h] at hj
    exact hwf _ (List.getElem?_mem hj)

/-- The clear loop leaves `numSamples` unchanged. -/
theorem foldl_clear_numSamples (L : List Nat) (b : AudioBuffer) :
    (L.foldl (fun acc i => acc.clear i 0 acc.getNumSamples) b).numSamples
      = b.numSamples := by
  induction L generalizing b with
  | nil => rfl
  | cons c rest ih =>
    rw [List.foldl_cons, ih, AudioBuffer.numSamples_clear]

/-- The clear loop leaves the number of channels unchanged. -/
theorem foldl_clear_channels_length (L : List Nat) (b : AudioBuffer) :
    (L.foldl (fun acc i => acc.clear i 0 acc.getNumSamples) b).channels.length
      = b.channels.length := by
  induction L generalizing b with
  | nil => rfl
  | cons c rest ih =>
    rw [List.foldl_cons, ih, AudioBuffer.channels_length_clear]

/-- The clear loop preserves buffer well-formedness. -/
theorem foldl_clear_WF (L : List Nat) (b : AudioBuffer) (hwf : b.WF) :
    (L.foldl (fun acc i => acc.clear i 0 acc.getNumSamples) b).WF := by
  induction L generalizing b with
  | nil => exact hwf
  | cons c rest ih => exact ih _ (AudioBuffer.WF_clear _ _ _ _ hwf)

/-- The clear loop keeps an already-zero channel zero. -/
theorem foldl_clear_preserves_zero (L : List Nat) (b : AudioBuffer) (j : Nat) :
    b.channels[j]? = some (List.replicate b.numSamples 0) →
    (L.foldl (fun acc i => acc.clear i 0 acc.getNumSamples) b).channels[j]?
      = some (List.replicate b.numSamples 0) := by
  induction L generalizing b with
  | nil => exact id
  | cons c rest ih =>
    intro hz
    rw [List.foldl_cons]
    have hstep : (b.clear c 0 b.getNumSamples).channels[j]?
        = some (List.replicate (b.clear c 0 b.getNumSamples).numSamples 0) := by
      rw [AudioBuffer.channels_clear_getElem?]
      simp only [AudioBuffer.getNumSamples_eq, AudioBuffer.numSamples_clear]
      by_cases h : j = c
      · rw [if_pos h, hz, Option.map_some',
          zeroRange_eq_replicate _ _ (List.length_replicate _ _)]
      · rw [if_neg h]
        exact hz
    exact ih _ hstep

/-- A channel whose index the clear loop visits comes out all-zero. -/
theorem foldl_clear_zero_of_mem (L : List Nat) (b : AudioBuffer) (j : Nat)
    (hwf : b.WF) (hj : j ∈ L) (hlt : j < b.channels.length) :
    (L.foldl (fun acc i => acc.clear i 0 acc.getNumSamples) b).channels[j]?
      = some (List.replicate b.numSamples 0) := by
  revert hwf hlt
  induction hj generalizing b with
  | head rest =>
    intro hwf hlt
    rw [List.foldl_cons]
    have hz : (b.clear j 0 b.getNumSamples).channels[j]?
        = some (List.replicate (b.clear j 0 b.getNumSamples).numSamples 0) := by
      rw [AudioBuffer.channels_clear_getElem?]
      simp only [AudioBuffer.getNumSamples_eq, AudioBuffer.numSamples_clear,
        eq_self_iff_true, if_true]
      rw [List.getElem?_eq_getElem hlt, Option.map_some',
        zeroRange_eq_replicate _ _ (hwf _ (List.getElem_mem hlt))]
    exact foldl_clear_preserves_zero rest _ j hz
  | tail c hmem ih =>
    intro hwf hlt
    rw [List.foldl_cons]
    exact ih _ (AudioBuffer.WF_clear _ _ _ _ hwf)
      (by rw [AudioBuffer.channels_length_clear]; exact hlt)

/-- Indexing into the channels produced by the gain stage. -/
theorem GainState.processData_getElem? (g : GainState) (chs : List (List ℚ)) (j : Nat) :
    (g.processData chs)[j]? =
      Option.map (fun ch => ch.map (fun s => g.gainLinear * s)) chs[j]? := by
  unfold GainState.processData
  exact List.getElem?_map _ _ _

/-- The gain stage leaves the number of channels unchanged. -/
theorem GainState.processData_length (g : GainState) (chs : List (List ℚ)) :
    (g.processData chs).length = chs.length := by
  unfold GainState.processData
  simp

/-- The channel data produced by `processBlock`. -/
theorem processBlock_channels (p : MyPluginAudioProcessor) (buffer : AudioBuffer)
    (midiMessages : MidiBuffer) :
    ((p.processBlock buffer midiMessages).2.1).channels
      = p.processorChain.processData (p.clearUnusedChannels buffer).channels := rfl

/-- `processBlock` leaves the channel count of the buffer unchanged. -/
theorem processBlock_getNumChannels (p : MyPluginAudioProcessor)
    (buffer : AudioBuffer) (midiMessages : MidiBuffer) :
    ((p.processBlock buffer midiMessages).2.1).getNumChannels
      = buffer.getNumChannels := by
  unfold AudioBuffer.getNumChannels
  rw [processBlock_channels, GainState.processData_length]
  unfold MyPluginAudioProcessor.clearUnusedChannels
  rw [foldl_clear_channels_length]

/-- Every host-reachable processor state still has the default unity gain:
nothing in the plugin ever changes the gain stage's value (there is no
parameter system). -/
theorem reachable_gainLinear {p : MyPluginAudioProcessor} (h : Reachable p) :
    p.processorChain.gainLinear = 1 := by
  induction h with
  | construct => rfl
  | prepareToPlay sampleRate samplesPerBlock _ ih => exact ih
  | releaseResources _ ih => exact ih
  | processBlock buffer midiMessages _ ih => exact ih
  | setStateInformation data sizeInBytes _ ih => exact ih

/-! ### Claims -/

/-- C1: for every audio buffer whose number of output channels exceeds the
number of input channels, after `processBlock` every sample of every
channel at index ≥ the number of input channels is exactly zero (the
channel comes out as an all-zero channel of `numSamples` samples). -/
theorem processBlock_zeroes_extra_output_channels
    (p : MyPluginAudioProcessor) (buffer : AudioBuffer)
    (midiMessages : MidiBuffer) (hwf : buffer.WF)
    (hch : buffer.getNumChannels = p.totalNumOutputChannels)
    (hio : p.totalNumInputChannels < p.totalNumOutputChannels)
    (i : Nat) (hlo : p.totalNumInputChannels ≤ i)
    (hhi : i < buffer.getNumChannels) :
    ((p.processBlock buffer midiMessages).2.1).channels[i]?
      = some (List.replicate buffer.numSamples 0) := by
  rw [processBlock_channels, GainState.processData_getElem?]
  have hz : (p.clearUnusedChannels buffer).channels[i]?
      = some (List.replicate buffer.numSamples 0) := by
    unfold MyPluginAudioProcessor.clearUnusedChannels
    have hnum : (p.clearUnusedChannels buffer).numSamples = buffer.numSamples :=
      foldl_clear_numSamples _ _
    refine Eq.trans (b := (List.range' p.totalNumInputChannels
        (p.totalNumOutputChannels - p.totalNumInputChannels)).foldl
          (fun b i => b.clear i 0 b.getNumSamples) buffer
        |>.channels[i]?) rfl ?_
    apply foldl_clear_zero_of_mem _ _ _ hwf
    · rw [List.mem_range']
      unfold AudioBuffer.getNumChannels at hch hhi
      exact ⟨i - p.totalNumInputChannels, by omega, by omega⟩
    · unfold AudioBuffer.getNumChannels at hhi
      exact hhi
  rw [hz, Option.map_some', List.map_replicate, mul_zero]

/-- Witness for C1 at a mono-in / stereo-out processor and a concrete
2-channel buffer: the second output channel comes out all-zero. -/
theorem processBlock_zeroes_extra_output_channels_witness :
    (((⟨1, 2, GainState.default⟩ : MyPluginAudioProcessor).processBlock
        ⟨2, [[5, 6], [7, 8]]⟩ []).2.1).channels[1]?
      = some (List.replicate 2 0) :=
  processBlock_zeroes_extra_output_channels ⟨1, 2, GainState.default⟩
    ⟨2, [[5, 6], [7, 8]]⟩ [] (by decide) (by decide) (by decide) 1
    (by decide) (by decide)

/-- C2: after `prepareToPlay 44100 512` on the stereo constructor state,
processing a 2-channel × 512-sample buffer of all-1.0 samples with the
default (0 dB, unity) gain leaves the buffer unchanged. -/
theorem processBlock_unity_gain_identity :
    ((MyPluginAudioProcessor.construct.prepareToPlay 44100 512).processBlock
        ⟨512, List.replicate 2 (List.replicate 512 1)⟩ []).2.1
      = ⟨512, List.replicate 2 (List.replicate 512 1)⟩ := by
  have h2 : (MyPluginAudioProcessor.construct.prepareToPlay
        44100 512).processorChain.processData
        (List.replicate 2 (List.replicate 512 1))
      = List.replicate 2 (List.replicate 512 1) := by
    unfold GainState.processData
    rw [List.map_replicate, List.map_replicate]
    show List.replicate 2 (List.replicate 512 ((1 : ℚ) * 1)) = _
    rw [one_mul]
  show (⟨512, (MyPluginAudioProcessor.construct.prepareToPlay
        44100 512).processorChain.processData
        (List.replicate 2 (List.replicate 512 1))⟩ : AudioBuffer)
      = ⟨512, List.replicate 2 (List.replicate 512 1)⟩
  rw [h2]

/-- C3: for every reachable processor state, `setStateInformation` on the
blob produced by `getStateInformation` is the identity on the processor's
parameter values (indeed on the whole processor state; the plugin has no
parameter system, so this covers in particular the default and any
extreme parameter values, which all coincide with the default). -/
theorem getState_setState_roundtrip (p : MyPluginAudioProcessor)
    (h : Reachable p) (destData : MemoryBlock) :
    (p.setStateInformation (p.getStateInformation destData)
        (p.getStateInformation destData).length).paramValues = p.paramValues
    ∧ p.setStateInformation (p.getStateInformation destData)
        (p.getStateInformation destData).length = p :=
  ⟨rfl, rfl⟩

/-- Witness for C3 at the default (freshly constructed) processor state
and an empty destination block. -/
theorem getState_setState_roundtrip_witness :
    (MyPluginAudioProcessor.construct.setStateInformation
        (MyPluginAudioProcessor.construct.getStateInformation [])
        (MyPluginAudioProcessor.construct.getStateInformation []).length).paramValues
      = MyPluginAudioProcessor.construct.paramValues
    ∧ MyPluginAudioProcessor.construct.setStateInformation
        (MyPluginAudioProcessor.construct.getStateInformation [])
        (MyPluginAudioProcessor.construct.getStateInformation []).length
      = MyPluginAudioProcessor.construct :=
  getState_setState_roundtrip MyPluginAudioProcessor.construct
    Reachable.construct []

/-- C4: from every reachable processor state, `setStateInformation` with
any byte sequence (including malformed garbage) is a total function — it
never fails — and afterwards the processor's parameter values are the
default parameter values (the plugin never changes its only
parameter-like value, the unity gain, so every reachable state already
carries the defaults and the no-op restore keeps them). -/
theorem setState_garbage_gives_default_params (p : MyPluginAudioProcessor)
    (h : Reachable p) (data : List Nat) (sizeInBytes : Nat) :
    (p.setStateInformation data sizeInBytes).paramValues
      = defaultParamValues :=
  reachable_gainLinear h

/-- Witness for C4 at the constructed processor and a concrete garbage
byte sequence. -/
theorem setState_garbage_gives_default_params_witness :
    (MyPluginAudioProcessor.construct.setStateInformation [255, 0, 17]
        3).paramValues = defaultParamValues :=
  setState_garbage_gives_default_params MyPluginAudioProcessor.construct
    Reachable.construct [255, 0, 17] 3

/-- C5: `releaseResources` is a no-op from every processor state — with or
without a prior `prepareToPlay` — so calling it twice in a row is a no-op
both times and the second call produces the same state as the first. -/
theorem releaseResources_idempotent_noop (p : MyPluginAudioProcessor) :
    p.releaseResources = p
    ∧ p.releaseResources.releaseResources = p.releaseResources :=
  ⟨rfl, rfl⟩

/-- C6: for every sample rate and block size, after `prepareToPlay` each
`processBlock` call leaves the buffer's channel count unchanged; the same
holds for every processor state, and `processBlock` does not change the
processor, so the property persists over any number of calls. -/
theorem processBlock_preserves_channel_count (p : MyPluginAudioProcessor)
    (sampleRate : ℚ) (samplesPerBlock : Nat) (buffer : AudioBuffer)
    (midiMessages : MidiBuffer) :
    (((p.prepareToPlay sampleRate samplesPerBlock).processBlock buffer
        midiMessages).2.1).getNumChannels = buffer.getNumChannels
    ∧ ((p.processBlock buffer midiMessages).2.1).getNumChannels
        = buffer.getNumChannels
    ∧ (p.processBlock buffer midiMessages).1 = p :=
  ⟨processBlock_getNumChannels _ _ _, processBlock_getNumChannels _ _ _, rfl⟩

/-- C7: `prepareToPlay` configures the signal chain with exactly the
format built from the given sample rate, the given maximum block size and
the processor's output channel count; it changes nothing else (channel
counts and the gain value are untouched), and a repeated call makes the
most recent format take effect. -/
theorem prepareToPlay_configures_chain (p : MyPluginAudioProcessor)
    (sampleRate : ℚ) (samplesPerBlock : Nat) :
    (p.prepareToPlay sampleRate samplesPerBlock).processorChain
      = p.processorChain.prepare
          { sampleRate := sampleRate
            maximumBlockSize := samplesPerBlock
            numChannels := p.totalNumOutputChannels }
    ∧ (p.prepareToPlay sampleRate samplesPerBlock).processorChain.sampleRate
        = sampleRate
    ∧ (p.prepareToPlay sampleRate samplesPerBlock).processorChain.gainLinear
        = p.processorChain.gainLinear
    ∧ (p.prepareToPlay sampleRate samplesPerBlock).totalNumInputChannels
        = p.totalNumInputChannels
    ∧ (p.prepareToPlay sampleRate samplesPerBlock).totalNumOutputChannels
        = p.totalNumOutputChannels
    ∧ ∀ (sampleRate2 : ℚ) (samplesPerBlock2 : Nat),
        (p.prepareToPlay sampleRate samplesPerBlock).prepareToPlay
            sampleRate2 samplesPerBlock2
          = p.prepareToPlay sampleRate2 samplesPerBlock2 :=
  ⟨rfl, rfl, rfl, rfl, rfl, fun _ _ => rfl⟩

/-- C8: in the current design the state save/restore pair are no-ops:
`getStateInformation` writes nothing into the destination block (a fresh
destination stays empty), and `setStateInformation` changes no processor
state. -/
theorem state_persistence_noop (p : MyPluginAudioProcessor)
    (destData : MemoryBlock) (data : List Nat) (sizeInBytes : Nat) :
    p.getStateInformation destData = destData
    ∧ p.getStateInformation [] = []
    ∧ p.setStateInformation data sizeInBytes = p :=
  ⟨rfl, rfl, rfl⟩

/-- C9: over every `processBlock` call, whatever the denormal-flushing
flag's value on entry, the `ScopedNoDenormals` guard enables flushing at
the start of the block, flushing stays enabled through both processing
steps (the clear loop and the chain processing), and the saved
floating-point environment is restored when the function returns. -/
theorem processBlock_denormal_flush_trace (initial : Bool) :
    fpEnvTrace initial = [initial, true, true, true, initial] := by
  cases initial <;> rfl

/-- C10: `processBlock` completely ignores the MIDI side-channel: the
event sequence is unchanged after the call, neither the audio result nor
the processor state depends on its contents, and the processor reports
`acceptsMidi`, `producesMidi` and `isMidiEffect` all as `false`. -/
theorem processBlock_ignores_midi (p : MyPluginAudioProcessor)
    (buffer : AudioBuffer) (midiMessages midiMessages2 : MidiBuffer) :
    (p.processBlock buffer midiMessages).2.2 = midiMessages
    ∧ (p.processBlock buffer midiMessages).2.1
        = (p.processBlock buffer midiMessages2).2.1
    ∧ (p.processBlock buffer midiMessages).1
        = (p.processBlock buffer midiMessages2).1
    ∧ p.acceptsMidi = false
    ∧ p.producesMidi = false
    ∧ p.isMidiEffect = false :=
  ⟨rfl, rfl, rfl, rfl, rfl, rfl⟩
